import Mathlib

/-!
Verification of the `nengo-examples` repository (file
`src/htbab_tutorials/ch2-scalars.ipynb`, which holds two notebook
documents).  The notebooks are JSON documents whose code cells contain
the Python source; we embed the two documents verbatim as JSON values
and additionally give structural embeddings of the Python definitions
(the `Encoder`/`Decoder` classes, the network-construction cell, the
input/target dictionaries and the training loop) that the claims are
about.
-/

namespace NengoExamples

/-- A JSON value, as found in a notebook document.  All numbers occurring
in the two documents are integers, so `num` carries an `Int`. -/
inductive Json where
  | null : Json
  | bool (b : Bool) : Json
  | num (n : Int) : Json
  | str (s : String) : Json
  | arr (elems : List Json) : Json
  | obj (fields : List (String × Json)) : Json

/-- Look up a key in a JSON object; `none` if the value is not an object
or the key is absent. -/
def Json.lookup : Json → String → Option Json
  | Json.obj fields, k => (fields.find? (fun p => p.1 == k)).map (fun p => p.2)
  | _, _ => none

/-- The element list of a JSON array (empty for non-arrays). -/
def Json.arrElems : Json → List Json
  | Json.arr elems => elems
  | _ => []

/-- The string content of a JSON string value. -/
def Json.strVal : Json → Option String
  | Json.str s => some s
  | _ => none

/-- Is this JSON value an object? -/
def Json.isObj : Json → Bool
  | Json.obj _ => true
  | _ => false

/-- Is this JSON value an array of strings? -/
def Json.isStrArr : Json → Bool
  | Json.arr elems => elems.all (fun e => (Json.strVal e).isSome)
  | _ => false

/-- Notebook document 1 of src/htbab_tutorials/ch2-scalars.ipynb, embedded verbatim as JSON. -/
def nbDoc1 : Json :=
  Json.obj [
    ("cells", Json.arr [
      Json.obj [
        ("cell_type", Json.str "markdown"),
        ("metadata", Json.obj []),
        ("source", Json.arr [
          Json.str "# Representing a scalar\n",
          Json.str "\n",
          Json.str "You can construct and manipulate a population of neurons (ensemble) in nengo. This model shows shows how the activity of neural populations can be thought of as representing a mathematical variable (a scalar value). "])],
      Json.obj [
        ("cell_type", Json.str "code"),
        ("execution_count", Json.null),
        ("metadata", Json.obj [
          ("collapsed", Json.bool false)]),
        ("outputs", Json.arr []),
        ("source", Json.arr [
          Json.str "# Setup the environment\n",
          Json.str "import numpy as np\n",
          Json.str "import matplotlib.pyplot as plt\n",
          Json.str "%matplotlib inline\n",
          Json.str "\n",
          Json.str "import nengo\n",
          Json.str "from nengo.dists import Uniform\n",
          Json.str "from nengo.utils.matplotlib import rasterplot\n",
          Json.str "from nengo.utils.ensemble import tuning_curves"])],
      Json.obj [
        ("cell_type", Json.str "markdown"),
        ("metadata", Json.obj []),
        ("source", Json.arr [
          Json.str "## Create the Model\n",
          Json.str "\n",
          Json.str "This model has paramenters as described in the book and uses a single population (ensemble) of 100 LIF neurons. Note that the default max rates in Nengo 2.0 are (200, 400), so you have to explicitly specify them to be (100, 200) to create the model with the same parameters as described in the book. Moreover the \x27Node Factory\x27 feature of ensembles mentioned in the book maps to the \x27neuron_type\x27 in Nengo 2.0 which is set to LIF by default. The default values of tauRC, tauRef, radius and intercepts in Nengo 2.0 are the same as those mentioned in the book."])],
      Json.obj [
        ("cell_type", Json.str "code"),
        ("execution_count", Json.null),
        ("metadata", Json.obj [
          ("collapsed", Json.bool false)]),
        ("outputs", Json.arr []),
        ("source", Json.arr [
          Json.str "model = nengo.Network(label=\x27Many Neurons\x27)\n",
          Json.str "with model:\n",
          Json.str "    # Input\n",
          Json.str "    input = nengo.Node(lambda t: np.sin(16 * t))      # Input sine wave with range 1\n",
          Json.str "    # input = nengo.Node(lambda t: 4*np.sin(16 * t))   # Input sine wave with range increased to 4\n",
          Json.str "    \n",
          Json.str "    # Ensemble with 100 LIF neurons  \n",
          Json.str "    x = nengo.Ensemble(100, dimensions=1, max_rates = Uniform(100, 200))\n",
          Json.str "    \n",
          Json.str "    # Connecting input to ensemble\n",
          Json.str "    nengo.Connection(input, x) "])],
      Json.obj [
        ("cell_type", Json.str "markdown"),
        ("metadata", Json.obj []),
        ("source", Json.arr [
          Json.str "## Run the model"])],
      Json.obj [
        ("cell_type", Json.str "markdown"),
        ("metadata", Json.obj []),
        ("source", Json.arr [
          Json.str "Import the nengo_gui visualizer to run and visualize the model."])],
      Json.obj [
        ("cell_type", Json.str "code"),
        ("execution_count", Json.null),
        ("metadata", Json.obj [
          ("collapsed", Json.bool false)]),
        ("outputs", Json.arr []),
        ("source", Json.arr [
          Json.str "from nengo_gui.ipython import IPythonViz\n",
          Json.str "IPythonViz(model, \"ch2-scalars.py.cfg\")"])],
      Json.obj [
        ("cell_type", Json.str "markdown"),
        ("metadata", Json.obj []),
        ("source", Json.arr [
          Json.str "Press the play button in the visualizer to run the simulation. You should see the graphs as shown in the figure below.\n",
          Json.str "\n",
          Json.str "The graph on the top left shows the input and the graph on the top right shows the the decoded value of the neural spiking (a linearly decoded estimate of the input). The graph on the bottom right shows the spike raster which is the spiking output of the neuron population (x)."])],
      Json.obj [
        ("cell_type", Json.str "code"),
        ("execution_count", Json.null),
        ("metadata", Json.obj [
          ("collapsed", Json.bool false)]),
        ("outputs", Json.arr []),
        ("source", Json.arr [
          Json.str "from IPython.display import Image\n",
          Json.str "Image(filename=\x27ch2-scalars.png\x27)"])],
      Json.obj [
        ("cell_type", Json.str "markdown"),
        ("metadata", Json.obj []),
        ("source", Json.arr [
          Json.str "### Increasing the range of Input"])],
      Json.obj [
        ("cell_type", Json.str "markdown"),
        ("metadata", Json.obj []),
        ("source", Json.arr [
          Json.str "You have seen that the population of neurons does a reasonably good job of representing the input. However, neurons cannot represent arbitrary values well and you can verify this by increasing the range of the input to 4 ( input = nengo.Node(lambda t: 4*np.sin(16 * t)) ). You will observe the same saturation effects as described in the book, showing that the neurons do a much better job at representing information within the defined radius."])],
      Json.obj [
        ("cell_type", Json.str "markdown"),
        ("metadata", Json.obj []),
        ("source", Json.arr [
          Json.str "### Plotting the Tuninig Curves"])],
      Json.obj [
        ("cell_type", Json.str "markdown"),
        ("metadata", Json.obj []),
        ("source", Json.arr [
          Json.str "The tuning curve of a neurons tells us how it responds to an incoming input signal. Looking at the tuning curves of the neurons in an ensemble is one of the most common ways to debug failures in a model. \n",
          Json.str "\n",
          Json.str "For a one-dimensional ensemble, since the input is a scalar, we can use the input as x-axis and the neuron response as y-axis."])],
      Json.obj [
        ("cell_type", Json.str "code"),
        ("execution_count", Json.null),
        ("metadata", Json.obj [
          ("collapsed", Json.bool false)]),
        ("outputs", Json.arr []),
        ("source", Json.arr [
          Json.str "# Alternative way to run the model\n",
          Json.str "with nengo.Simulator(model) as sim: # Create the simulator\n",
          Json.str "    sim.run(1)                      # Run the simulation for 1 second"])],
      Json.obj [
        ("cell_type", Json.str "code"),
        ("execution_count", Json.null),
        ("metadata", Json.obj [
          ("collapsed", Json.bool false)]),
        ("outputs", Json.arr []),
        ("source", Json.arr [
          Json.str "# Plot the tuning curves of the ensemble\n",
          Json.str "plt.figure()\n",
          Json.str "plt.plot(*tuning_curves(x, sim))\n",
          Json.str "plt.ylabel(\"Firing rate (Hz)\")\n",
          Json.str "plt.xlabel(\"Input scalar, x\");"])],
      Json.obj [
        ("cell_type", Json.str "markdown"),
        ("metadata", Json.obj []),
        ("source", Json.arr [
          Json.str "If there is some biological or functional reason to impose some pattern to the neuron responses, you can do so by changing the parameters of the ensemble."])],
      Json.obj [
        ("cell_type", Json.str "code"),
        ("execution_count", Json.null),
        ("metadata", Json.obj [
          ("collapsed", Json.bool false)]),
        ("outputs", Json.arr []),
        ("source", Json.arr [
          Json.str "from nengo.dists import Choice\n",
          Json.str "x.intercepts = Choice([-0.2])  # change the intercept of all neurons -0.2\n",
          Json.str "\n",
          Json.str "with nengo.Simulator(model) as sim:\n",
          Json.str "    plt.plot(*tuning_curves(x, sim))\n",
          Json.str "plt.ylabel(\"Firing rate (Hz)\")\n",
          Json.str "plt.xlabel(\"Input scalar, x\");"])],
      Json.obj [
        ("cell_type", Json.str "markdown"),
        ("metadata", Json.obj []),
        ("source", Json.arr [
          Json.str "Note that in the above figure, some neurons start firing at -0.2, while others stop firing at 0.2. This is because the input signal, x, is multipled by a neuron\x27s encoder when it is converted to input current. You can also constrain the tuning curves by changing the encoders of the ensemble."])],
      Json.obj [
        ("cell_type", Json.str "code"),
        ("execution_count", Json.null),
        ("metadata", Json.obj [
          ("collapsed", Json.bool false)]),
        ("outputs", Json.arr []),
        ("source", Json.arr [
          Json.str "x.encoders = Choice([[1]])  # change the encoder of all neurons to [1]\n",
          Json.str "\n",
          Json.str "with nengo.Simulator(model) as sim:\n",
          Json.str "    plt.plot(*tuning_curves(x, sim))\n",
          Json.str "plt.plot(*tuning_curves(x, sim))\n",
          Json.str "plt.ylabel(\"Firing rate (Hz)\")\n",
          Json.str "plt.xlabel(\"Input scalar, x\");"])],
      Json.obj [
        ("cell_type", Json.str "markdown"),
        ("metadata", Json.obj []),
        ("source", Json.arr [
          Json.str "This gives us an ensemble of neurons that respond very predictably to input. In some cases, this is important for the proper functioning of a model, or to match what we know about the physiology of a brain area or neuron type."])]]),
    ("metadata", Json.obj [
      ("kernelspec", Json.obj [
        ("display_name", Json.str "Python 2"),
        ("language", Json.str "python"),
        ("name", Json.str "python2")]),
      ("language_info", Json.obj [
        ("codemirror_mode", Json.obj [
          ("name", Json.str "ipython"),
          ("version", Json.num 2)]),
        ("file_extension", Json.str ".py"),
        ("mimetype", Json.str "text/x-python"),
        ("name", Json.str "python"),
        ("nbconvert_exporter", Json.str "python"),
        ("pygments_lexer", Json.str "ipython2"),
        ("version", Json.str "2.7.10")]),
      ("widgets", Json.obj [
        ("state", Json.obj []),
        ("version", Json.str "1.1.2")])]),
    ("nbformat", Json.num 4),
    ("nbformat_minor", Json.num 0)]

/-- Notebook document 2 of src/htbab_tutorials/ch2-scalars.ipynb, embedded verbatim as JSON. -/
def nbDoc2 : Json :=
  Json.obj [
    ("cells", Json.arr [
      Json.obj [
        ("cell_type", Json.str "markdown"),
        ("metadata", Json.obj []),
        ("source", Json.arr [
          Json.str "## Training an Autoencoder With TensorNodes\n",
          Json.str "\n",
          Json.str "When working with TensorNodes you can train them just like normal parts of a Nengo model. The only deviation from the standard procedure is the definition of the custom classes which encapsulate the TensorFlow portions. \n",
          Json.str "\n",
          Json.str "In this example we will illustrate this trainability by training an autoencoder on the MNIST dataset. The autoencoder takes the input in with a dimensionality of `784` (28\\*28) and reduces it to a dimensionality of `36`. This is the encoding phase where the network is effectively compressing the input. The decode phase then takes that `36` dimensional representation and attempts to reconstruct the original input with it.\n",
          Json.str "\n",
          Json.str "We show at the bottom of the notebook how the training changes the output. The output starts off as pure noise and gradually looks more and more like the input."])],
      Json.obj [
        ("cell_type", Json.str "code"),
        ("execution_count", Json.null),
        ("metadata", Json.obj [
          ("collapsed", Json.bool true)]),
        ("outputs", Json.arr []),
        ("source", Json.arr [
          Json.str "%matplotlib inline\n",
          Json.str "\n",
          Json.str "import nengo\n",
          Json.str "import nengo_dl\n",
          Json.str "import numpy as np\n",
          Json.str "import tensorflow as tf\n",
          Json.str "import matplotlib.pyplot as plt"])],
      Json.obj [
        ("cell_type", Json.str "code"),
        ("execution_count", Json.null),
        ("metadata", Json.obj []),
        ("outputs", Json.arr []),
        ("source", Json.arr [
          Json.str "# Import MNIST data\n",
          Json.str "from tensorflow.examples.tutorials.mnist import input_data\n",
          Json.str "mnist = input_data.read_data_sets(\"MNIST_data\", one_hot=True)"])],
      Json.obj [
        ("cell_type", Json.str "markdown"),
        ("metadata", Json.obj []),
        ("source", Json.arr [
          Json.str "The network architecture consists of one input layer followed by 4 densely connected layers. The layers architecture is mirrored such that:\n",
          Json.str "\n",
          Json.str "```\n",
          Json.str "Layer 1: 784 Elements - Input\n",
          Json.str "Layer 2: 128 Elements - Encode 1\n",
          Json.str "Layer 3: 36 Elements - Encode 2\n",
          Json.str "Layer 4: 128 Elements - Decode 1\n",
          Json.str "Layer 5: 784 Elements - Decode 2/Output\n",
          Json.str "```"])],
      Json.obj [
        ("cell_type", Json.str "code"),
        ("execution_count", Json.null),
        ("metadata", Json.obj [
          ("collapsed", Json.bool true)]),
        ("outputs", Json.arr []),
        ("source", Json.arr [
          Json.str "# Network Parameters\n",
          Json.str "n_hidden_1 = 128 # 1st layer num features\n",
          Json.str "n_hidden_2 = 36 # 2nd layer num features\n",
          Json.str "n_input = 784 # MNIST data input (img shape: 28*28)"])],
      Json.obj [
        ("cell_type", Json.str "markdown"),
        ("metadata", Json.obj []),
        ("source", Json.arr [
          Json.str "The TensorNodes are broken up into two classes: an Encoder, which compresses the input, and a Decoder, which decompresses the output to attempt to recreate the original.\n",
          Json.str "\n",
          Json.str "Both of the TensorNode types consist of two fully connected (dense) layers which are in turn connected to each other"])],
      Json.obj [
        ("cell_type", Json.str "code"),
        ("execution_count", Json.null),
        ("metadata", Json.obj [
          ("collapsed", Json.bool true)]),
        ("outputs", Json.arr []),
        ("source", Json.arr [
          Json.str "# Building the encoder\n",
          Json.str "class Encoder(object):\n",
          Json.str "    def pre_build(self, shape_in, shape_out):\n",
          Json.str "        self.n_mini = shape_in[0]\n",
          Json.str "        self.size_in = shape_in[1]\n",
          Json.str "        self.size_out = shape_out[1]\n",
          Json.str "        \n",
          Json.str "    \n",
          Json.str "    def __call__(self, t, x):    \n",
          Json.str "        dense = tf.contrib.layers.fully_connected(x, n_hidden_1)\n",
          Json.str "        dense = tf.contrib.layers.fully_connected(dense, n_hidden_2)\n",
          Json.str "\n",
          Json.str "        return dense\n",
          Json.str "\n",
          Json.str "\n",
          Json.str "# Building the encoder\n",
          Json.str "class Decoder(object):\n",
          Json.str "    def pre_build(self, shape_in, shape_out):\n",
          Json.str "        self.n_mini = shape_in[0]\n",
          Json.str "        self.size_in = shape_in[1]\n",
          Json.str "        self.size_out = shape_out[1]\n",
          Json.str "    \n",
          Json.str "    def __call__(self, t, x):    \n",
          Json.str "        dense = tf.contrib.layers.fully_connected(x, n_hidden_1)\n",
          Json.str "        dense = tf.contrib.layers.fully_connected(dense, self.size_out)\n",
          Json.str "\n",
          Json.str "        return dense\n",
          Json.str "\n",
          Json.str "\n",
          Json.str "with nengo.Network() as net:\n",
          Json.str "    net.config[nengo.Connection].synapse = None\n",
          Json.str "    net.config[nengo.Ensemble].neuron_type = nengo.RectifiedLinear()\n",
          Json.str "    net.config[nengo.Ensemble].gain = nengo.dists.Choice([1])\n",
          Json.str "    net.config[nengo.Ensemble].bias = nengo.dists.Choice([0])\n",
          Json.str "    \n",
          Json.str "     # create node to feed in images\n",
          Json.str "    inp = nengo.Node(nengo.processes.PresentInput(mnist.test.images, 0.001))\n",
          Json.str "    \n",
          Json.str "    # create TensorNodes to insert into the network\n",
          Json.str "    tf_encode = nengo_dl.TensorNode(Encoder(), size_in=n_input, size_out=n_hidden_2, label=\x27H1\x27)\n",
          Json.str "    tf_decode = nengo_dl.TensorNode(Decoder(), size_in=n_hidden_2, size_out=n_input, label=\x27H2\x27)\n",
          Json.str "    \n",
          Json.str "    # connecting all the nodes together\n",
          Json.str "    nengo.Connection(inp, tf_encode)\n",
          Json.str "    nengo.Connection(tf_encode, tf_decode)\n",
          Json.str "    \n",
          Json.str "    # defining probes\n",
          Json.str "    input_probe = nengo.Probe(inp)\n",
          Json.str "    encode_probe = nengo.Probe(tf_encode)\n",
          Json.str "    decode_probe = nengo.Probe(tf_decode)"])],
      Json.obj [
        ("cell_type", Json.str "markdown"),
        ("metadata", Json.obj []),
        ("source", Json.arr [
          Json.str "Luckily for this network the training data for output and input are the same, therefore the same data can be used for both."])],
      Json.obj [
        ("cell_type", Json.str "code"),
        ("execution_count", Json.null),
        ("metadata", Json.obj [
          ("collapsed", Json.bool true)]),
        ("outputs", Json.arr []),
        ("source", Json.arr [
          Json.str "train_inputs = \x7binp: mnist.train.images[:, None, :]\x7d\n",
          Json.str "train_targets = \x7bdecode_probe: train_inputs[inp]\x7d\n",
          Json.str "test_inputs = \x7binp: mnist.test.images[:, None, :]\x7d\n",
          Json.str "test_targets = \x7bdecode_probe: test_inputs[inp]\x7d"])],
      Json.obj [
        ("cell_type", Json.str "markdown"),
        ("metadata", Json.obj []),
        ("source", Json.arr [
          Json.str "We break the training up into single epochs so that we can visualize the effect of the training over time."])],
      Json.obj [
        ("cell_type", Json.str "code"),
        ("execution_count", Json.null),
        ("metadata", Json.obj [
          ("collapsed", Json.bool true),
          ("scrolled", Json.bool true)]),
        ("outputs", Json.arr []),
        ("source", Json.arr [
          Json.str "n_examples = 100\n",
          Json.str "losses = []\n",
          Json.str "learning_rate = 0.05\n",
          Json.str "repetitions = 5\n",
          Json.str "with nengo_dl.Simulator(net, minibatch_size=n_examples, device=\"/cpu:0\") as sim:\n",
          Json.str "    optimizer = tf.train.MomentumOptimizer(learning_rate, 0.9)\n",
          Json.str "    \n",
          Json.str "    for e in range(repetitions):\n",
          Json.str "        losses.append(sim.loss(test_inputs, test_targets, \x27mse\x27))\n",
          Json.str "        print(losses)\n",
          Json.str "        \n",
          Json.str "        sim.step(input_feeds=\x7binp: test_inputs[inp][:n_examples]\x7d)\n",
          Json.str "        \n",
          Json.str "        sim.train(train_inputs, train_targets, optimizer)\n",
          Json.str "        \n",
          Json.str "    sim.step(input_feeds=\x7binp: test_inputs[inp][:n_examples]\x7d)"])],
      Json.obj [
        ("cell_type", Json.str "markdown"),
        ("metadata", Json.obj []),
        ("source", Json.arr [
          Json.str "The plot below shows the input on the top row, the compressed representation in the middle, and then the reconstructed output on the bottom. We can see that as training progresses (moving left to right) the reconstructions become more and more accurate. "])],
      Json.obj [
        ("cell_type", Json.str "code"),
        ("execution_count", Json.null),
        ("metadata", Json.obj []),
        ("outputs", Json.arr []),
        ("source", Json.arr [
          Json.str "figure, axis = plt.subplots(3, repetitions+1, figsize=(10, 5))\n",
          Json.str "for i in range(repetitions+1):\n",
          Json.str "    axis[0][i].imshow(np.reshape(sim.data[input_probe][0, i], (28, 28)))\n",
          Json.str "    axis[1][i].imshow(np.reshape(sim.data[encode_probe][0, i], (6, 6)))\n",
          Json.str "    axis[2][i].imshow(np.reshape(sim.data[decode_probe][0, i], (28, 28)))"])],
      Json.obj [
        ("cell_type", Json.str "code"),
        ("execution_count", Json.null),
        ("metadata", Json.obj [
          ("collapsed", Json.bool true)]),
        ("outputs", Json.arr []),
        ("source", Json.arr [])]]),
    ("metadata", Json.obj [
      ("kernelspec", Json.obj [
        ("display_name", Json.str "Python 3"),
        ("language", Json.str "python"),
        ("name", Json.str "python3")]),
      ("language_info", Json.obj [
        ("codemirror_mode", Json.obj [
          ("name", Json.str "ipython"),
          ("version", Json.num 3)]),
        ("file_extension", Json.str ".py"),
        ("mimetype", Json.str "text/x-python"),
        ("name", Json.str "python"),
        ("nbconvert_exporter", Json.str "python"),
        ("pygments_lexer", Json.str "ipython3"),
        ("version", Json.str "3.5.4")])]),
    ("nbformat", Json.num 4),
    ("nbformat_minor", Json.num 2)]

/-! ## Accessing notebook cells and their source lines -/

/-- The cell list of a notebook document (the value of its `"cells"` key). -/
def cellsOf (doc : Json) : List Json :=
  match doc.lookup "cells" with
  | some cs => cs.arrElems
  | none => []

/-- The `cell_type` of a cell, if present and a string. -/
def cellTypeOf (cell : Json) : Option String :=
  (cell.lookup "cell_type").bind Json.strVal

/-- The source lines of a cell: the strings of its `"source"` array. -/
def sourceLinesOf (cell : Json) : List String :=
  match cell.lookup "source" with
  | some src => src.arrElems.filterMap Json.strVal
  | none => []

/-- The code cells of a notebook document. -/
def codeCellsOf (doc : Json) : List Json :=
  (cellsOf doc).filter (fun c => cellTypeOf c == some "code")

/-- All source lines of all code cells of a notebook document, in order. -/
def codeLinesOf (doc : Json) : List String :=
  (codeCellsOf doc).flatMap sourceLinesOf

/-! ## Substring search over source lines -/

/-- Does `pat` occur as a prefix of `s` (character lists)? -/
def prefixOfChars : List Char → List Char → Bool
  | [], _ => true
  | _ :: _, [] => false
  | a :: as, b :: bs => a == b && prefixOfChars as bs

/-- Does `pat` occur as a contiguous sublist of `s` (character lists)? -/
def subOfChars (pat : List Char) : List Char → Bool
  | [] => pat.isEmpty
  | c :: rest => prefixOfChars pat (c :: rest) || subOfChars pat rest

/-- Does the string `pat` occur as a substring of `s`? -/
def strHas (s pat : String) : Bool :=
  subOfChars pat.toList s.toList

/-- The remainder of `s` after the first occurrence of `pat`, if any. -/
def afterPatChars (pat : List Char) : List Char → Option (List Char)
  | [] => if pat.isEmpty then some [] else none
  | c :: rest =>
      if prefixOfChars pat (c :: rest) then some ((c :: rest).drop pat.length)
      else afterPatChars pat rest

/-- Characters of `s` up to (excluding) the first occurrence of `stop`. -/
def takeUntilChar (stop : Char) : List Char → List Char
  | [] => []
  | c :: rest => if c == stop then [] else c :: takeUntilChar stop rest

/-- The text between the first occurrence of `pat` in `line` and the next
closing parenthesis: the argument text of a call written `pat...)`. -/
def argTextAfter (line pat : String) : Option String :=
  (afterPatChars pat.toList line.toList).map
    (fun rest => String.mk (takeUntilChar ')' rest))

/-- The first line of `lines` containing `pat`, with the argument text of
the call at `pat` extracted. -/
def firstArgText (lines : List String) (pat : String) : Option String :=
  lines.findSome? (fun l => argTextAfter l pat)

/-- Parse a non-empty all-digit string as a natural number. -/
def parseNatText (s : String) : Option Nat :=
  let cs := s.toList
  if cs.isEmpty then none
  else if cs.all Char.isDigit then
    some (cs.foldl (fun acc c => 10 * acc + (c.toNat - 48)) 0)
  else none

/-! ## C6: notebook document validity -/

/-- A cell is well-formed: it has a string `cell_type`, a `metadata`
object, and a `source` array of strings. -/
def cellValid (cell : Json) : Bool :=
  (cellTypeOf cell).isSome
    && (match cell.lookup "metadata" with
        | some m => m.isObj
        | none => false)
    && (match cell.lookup "source" with
        | some src => src.isStrArr
        | none => false)

/-- A notebook document conforms to the standard structure: it is a JSON
object with a `"cells"` array whose cells are all well-formed, a
`"metadata"` object containing a `"kernelspec"` entry, and
`"nbformat"` equal to `4`. -/
def notebookValid (doc : Json) : Bool :=
  doc.isObj
    && (match doc.lookup "cells" with
        | some (Json.arr cells) => cells.all cellValid
        | _ => false)
    && (match doc.lookup "metadata" with
        | some m => m.isObj && (m.lookup "kernelspec").isSome
        | none => false)
    && (match doc.lookup "nbformat" with
        | some (Json.num n) => n == 4
        | _ => false)

/-! ## C2 / C8: syntactic scans of the code cells -/

/-- Python tokens whose presence would indicate catching, translating or
re-raising an exception. -/
def errorHandlingTokens : List String := ["try", "except", "raise", "finally"]

/-- No source line of any code cell of `doc` contains any error-handling
token. -/
def hasNoErrorHandling (doc : Json) : Bool :=
  (codeLinesOf doc).all (fun l => errorHandlingTokens.all (fun p => !(strHas l p)))

/-- Python tokens whose presence would indicate creating a thread, a
process, or an asynchronous task. -/
def concurrencyTokens : List String :=
  ["thread", "Thread", "multiprocessing", "subprocess", "asyncio", "async",
   "await", "concurrent", "fork", "Pool"]

/-- No source line of any code cell of `doc` contains any
concurrency-related token. -/
def hasNoConcurrency (doc : Json) : Bool :=
  (codeLinesOf doc).all (fun l => concurrencyTokens.all (fun p => !(strHas l p)))

/-! ## C3 / C5: the construction cell and the simulation cell of document 1 -/

/-- The source lines of the `i`-th code cell of a document. -/
def codeCellLines (doc : Json) (i : Nat) : List String :=
  match (codeCellsOf doc).drop i with
  | cell :: _ => sourceLinesOf cell
  | [] => []

/-- The network-construction cell of document 1 (its second code cell:
`model = nengo.Network(...) ... nengo.Connection(input, x)`). -/
def constructionCellLines : List String := codeCellLines nbDoc1 1

/-- The simulation cell of document 1 (its fifth code cell:
`with nengo.Simulator(model) as sim: sim.run(1)`). -/
def simulationCellLines : List String := codeCellLines nbDoc1 4

/-- A time function appearing in a `nengo.Node`: `sinScale c` stands for
the Python lambda `lambda t: np.sin(c * t)`. -/
inductive TimeFunExpr where
  | sinScale (c : Nat)
deriving DecidableEq

/-- A distribution specification for biophysical parameters:
`uniform lo hi` stands for `Uniform(lo, hi)`. -/
inductive DistSpec where
  | uniform (lo hi : Nat)
deriving DecidableEq

/-- One constructor call of the network-construction cell, or a
simulation-run request. -/
inductive BuildOp where
  | mkNetwork (label : String)
  | mkNode (f : TimeFunExpr)
  | mkEnsemble (neurons dims : Nat) (maxRates : DistSpec)
  | mkConnection (src tgt : String)
  | runSim (duration : Nat)
deriving DecidableEq

/-- Does this operation run the simulator? -/
def BuildOp.isRun : BuildOp → Bool
  | BuildOp.runSim _ => true
  | _ => false

/-- The operations performed by the construction cell of document 1, in
order: `nengo.Network(label='Many Neurons')`,
`nengo.Node(lambda t: np.sin(16 * t))`,
`nengo.Ensemble(100, dimensions=1, max_rates = Uniform(100, 200))`,
`nengo.Connection(input, x)`. -/
def constructionOps : List BuildOp :=
  [ BuildOp.mkNetwork "Many Neurons",
    BuildOp.mkNode (TimeFunExpr.sinScale 16),
    BuildOp.mkEnsemble 100 1 (DistSpec.uniform 100 200),
    BuildOp.mkConnection "input" "x" ]

/-! ## C4: the `Encoder` and `Decoder` class shapes -/

/-- A Python method: its name and its parameter names. -/
structure PyMethod where
  name : String
  params : List String
deriving DecidableEq

/-- A Python class: its name and its methods. -/
structure PyClass where
  name : String
  methods : List PyMethod
deriving DecidableEq

/-- The `Encoder` class of document 2: `pre_build(self, shape_in,
shape_out)` and `__call__(self, t, x)`, nothing else. -/
def EncoderClass : PyClass :=
  { name := "Encoder",
    methods :=
      [ { name := "pre_build", params := ["self", "shape_in", "shape_out"] },
        { name := "__call__", params := ["self", "t", "x"] } ] }

/-- The `Decoder` class of document 2: `pre_build(self, shape_in,
shape_out)` and `__call__(self, t, x)`, nothing else. -/
def DecoderClass : PyClass :=
  { name := "Decoder",
    methods :=
      [ { name := "pre_build", params := ["self", "shape_in", "shape_out"] },
        { name := "__call__", params := ["self", "t", "x"] } ] }

/-- The cell of document 2 defining the two classes and the network (its
fourth code cell). -/
def classCellLines : List String := codeCellLines nbDoc2 3

/-! ## C7: the training loop's effect on `losses` -/

/-- `repetitions = 5` in the training cell of document 2. -/
def repetitions : Nat := 5

/-- The `losses` list after the training cell's loop, given the mse test
loss `lossAt e` that `sim.loss(test_inputs, test_targets, 'mse')`
reports before the `e`-th training pass.  The cell runs
`losses = []` and then `for e in range(repetitions):
losses.append(sim.loss(...))` followed by `sim.step(...)` and
`sim.train(...)`, which do not touch `losses`. -/
def lossesAfterTraining {α : Type} (lossAt : Nat → α) : List α :=
  (List.range repetitions).foldl (fun acc e => acc ++ [lossAt e]) []

/-! ## C9: the input/target dictionaries of document 2 -/

/-- The notebook names that serve as dictionary keys in the
input/target mappings (`inp` and the probes). -/
inductive NetKey where
  | inp
  | input_probe
  | encode_probe
  | decode_probe
deriving DecidableEq, BEq

/-- The numpy slice `images[:, None, :]`: insert a new singleton axis in
the middle of the 2-d image array. -/
def addMiddleAxis (imgs : List (List ℚ)) : List (List (List ℚ)) :=
  imgs.map (fun row => [row])

/-- Python dictionary subscript `d[k]`: the value at `k`, or a
`KeyError` if absent. -/
def dictGet {β : Type} (d : List (NetKey × β)) (k : NetKey) : Except String β :=
  match d.find? (fun p => p.1 == k) with
  | some p => Except.ok p.2
  | none => Except.error "KeyError"

/-- `train_inputs = {inp: mnist.train.images[:, None, :]}`. -/
def train_inputs (trainImages : List (List ℚ)) :
    List (NetKey × List (List (List ℚ))) :=
  [(NetKey.inp, addMiddleAxis trainImages)]

/-- `train_targets = {decode_probe: train_inputs[inp]}`; building the
dictionary evaluates the subscript `train_inputs[inp]`. -/
def train_targets (trainImages : List (List ℚ)) :
    Except String (List (NetKey × List (List (List ℚ)))) :=
  (dictGet (train_inputs trainImages) NetKey.inp).map
    (fun v => [(NetKey.decode_probe, v)])

/-- `test_inputs = {inp: mnist.test.images[:, None, :]}`. -/
def test_inputs (testImages : List (List ℚ)) :
    List (NetKey × List (List (List ℚ))) :=
  [(NetKey.inp, addMiddleAxis testImages)]

/-- `test_targets = {decode_probe: test_inputs[inp]}`. -/
def test_targets (testImages : List (List ℚ)) :
    Except String (List (NetKey × List (List (List ℚ)))) :=
  (dictGet (test_inputs testImages) NetKey.inp).map
    (fun v => [(NetKey.decode_probe, v)])

/-! ## C10: widths produced by the `Encoder` and `Decoder` calls -/

/-- `n_hidden_1 = 128` (1st layer num features). -/
def n_hidden_1 : Nat := 128

/-- `n_hidden_2 = 36` (2nd layer num features). -/
def n_hidden_2 : Nat := 36

/-- `n_input = 784` (MNIST data input). -/
def n_input : Nat := 784

/-- The state an `Encoder` instance holds after `pre_build`. -/
structure EncoderState where
  n_mini : Nat
  size_in : Nat
  size_out : Nat
deriving DecidableEq

/-- The state a `Decoder` instance holds after `pre_build`. -/
structure DecoderState where
  n_mini : Nat
  size_in : Nat
  size_out : Nat
deriving DecidableEq

/-- `Encoder.pre_build(self, shape_in, shape_out)`: store
`shape_in[0]`, `shape_in[1]` and `shape_out[1]` on the instance. -/
def Encoder.pre_build (shape_in shape_out : Nat × Nat) : EncoderState :=
  { n_mini := shape_in.1, size_in := shape_in.2, size_out := shape_out.2 }

/-- `Decoder.pre_build(self, shape_in, shape_out)`: store
`shape_in[0]`, `shape_in[1]` and `shape_out[1]` on the instance. -/
def Decoder.pre_build (shape_in shape_out : Nat × Nat) : DecoderState :=
  { n_mini := shape_in.1, size_in := shape_in.2, size_out := shape_out.2 }

/-- The width of the tensor produced by
`tf.contrib.layers.fully_connected(x, numOutputs)`: the requested
number of outputs, whatever the input width. -/
def fully_connected (_inputWidth numOutputs : Nat) : Nat := numOutputs

/-- The output width of `Encoder.__call__(self, t, x)`: two
`fully_connected` layers with `n_hidden_1` and then the module-level
constant `n_hidden_2` outputs. -/
def Encoder.callWidth (_ : EncoderState) (xWidth : Nat) : Nat :=
  fully_connected (fully_connected xWidth n_hidden_1) n_hidden_2

/-- The output width of `Decoder.__call__(self, t, x)`: two
`fully_connected` layers with `n_hidden_1` and then `self.size_out`
outputs. -/
def Decoder.callWidth (s : DecoderState) (xWidth : Nat) : Nat :=
  fully_connected (fully_connected xWidth n_hidden_1) s.size_out

/-- A `nengo_dl.TensorNode`'s declared sizes and label. -/
structure TensorNode where
  size_in : Nat
  size_out : Nat
  label : String
deriving DecidableEq

/-- `tf_encode = nengo_dl.TensorNode(Encoder(), size_in=n_input,
size_out=n_hidden_2, label='H1')`. -/
def tf_encode : TensorNode :=
  { size_in := n_input, size_out := n_hidden_2, label := "H1" }

/-- `tf_decode = nengo_dl.TensorNode(Decoder(), size_in=n_hidden_2,
size_out=n_input, label='H2')`. -/
def tf_decode : TensorNode :=
  { size_in := n_hidden_2, size_out := n_input, label := "H2" }

/-- The `Encoder` state after the framework calls `pre_build` with
shapes `(minibatch, size_in)` and `(minibatch, size_out)` of
`tf_encode`. -/
def builtEncoderState (minibatch : Nat) : EncoderState :=
  Encoder.pre_build (minibatch, tf_encode.size_in) (minibatch, tf_encode.size_out)

/-- The `Decoder` state after the framework calls `pre_build` with
shapes `(minibatch, size_in)` and `(minibatch, size_out)` of
`tf_decode`. -/
def builtDecoderState (minibatch : Nat) : DecoderState :=
  Decoder.pre_build (minibatch, tf_decode.size_in) (minibatch, tf_decode.size_out)

/-! ## Theorems -/

set_option maxRecDepth 100000

/-- Claim C2: no code cell of either notebook document contains a
`try`, `except`, `raise` or `finally` token, so an exception raised by
an invoked external-library call propagates unchanged: there is no
error translation and no fallback branch anywhere in the repository's
code. -/
theorem noErrorHandlingAnywhere :
    hasNoErrorHandling nbDoc1 = true ∧ hasNoErrorHandling nbDoc2 = true :=
  ⟨rfl, rfl⟩

/-- Claim C3: in document 1's simulation cell, the `nengo.Simulator`
call receives exactly the argument text `model` and the `sim.run` call
receives exactly the argument text `1`, which parses as the single run
length 1 (second); the cell passes nothing else to the simulator. -/
theorem simulationCellPassesModelAndDurationOne :
    firstArgText simulationCellLines "nengo.Simulator(" = some "model"
      ∧ firstArgText simulationCellLines "sim.run(" = some "1"
      ∧ (firstArgText simulationCellLines "sim.run(").bind parseNatText
          = some 1 :=
  ⟨rfl, rfl, rfl⟩

/-- Claim C4: both `Encoder` and `Decoder` define exactly a
`pre_build(self, shape_in, shape_out)` setup method and a
`__call__(self, t, x)` call method and nothing else: the class cell
contains exactly two `class` lines and exactly the four corresponding
`def` lines, and the embedded class shapes agree. -/
theorem encoderDecoderPluginShape :
    classCellLines.filter (fun l => strHas l "class ")
        = ["class Encoder(object):\n", "class Decoder(object):\n"]
      ∧ classCellLines.filter (fun l => strHas l "def ")
        = ["    def pre_build(self, shape_in, shape_out):\n",
           "    def __call__(self, t, x):    \n",
           "    def pre_build(self, shape_in, shape_out):\n",
           "    def __call__(self, t, x):    \n"]
      ∧ EncoderClass.methods.map PyMethod.name = ["pre_build", "__call__"]
      ∧ DecoderClass.methods.map PyMethod.name = ["pre_build", "__call__"]
      ∧ EncoderClass.methods.map PyMethod.params
        = [["self", "shape_in", "shape_out"], ["self", "t", "x"]]
      ∧ DecoderClass.methods.map PyMethod.params
        = [["self", "shape_in", "shape_out"], ["self", "t", "x"]] :=
  ⟨rfl, rfl, rfl, rfl, rfl, rfl⟩

/-- Claim C5: document 1's construction cell builds only an in-memory
graph description: its operations are the network with label
`Many Neurons`, a node with the time function `t ↦ sin(16·t)`, an
ensemble of 100 neurons with `dimensions=1` and
`max_rates = Uniform(100, 200)`, and a connection from the input to
the ensemble; none of its operations runs the simulator, and no source
line of the cell mentions a simulator or a run/step request. -/
theorem constructionCellBuildsGraphOnly :
    constructionOps.all (fun op => !op.isRun) = true
      ∧ BuildOp.mkNetwork "Many Neurons" ∈ constructionOps
      ∧ BuildOp.mkNode (TimeFunExpr.sinScale 16) ∈ constructionOps
      ∧ BuildOp.mkEnsemble 100 1 (DistSpec.uniform 100 200) ∈ constructionOps
      ∧ BuildOp.mkConnection "input" "x" ∈ constructionOps
      ∧ constructionCellLines.any
          (fun l => strHas l "nengo.Ensemble(100, dimensions=1, max_rates = Uniform(100, 200))") = true
      ∧ constructionCellLines.any (fun l => strHas l "np.sin(16 * t)") = true
      ∧ constructionCellLines.all
          (fun l => !(strHas l "Simulator") && !(strHas l "sim.run")
            && !(strHas l ".step")) = true := by
  refine ⟨rfl, ?_, ?_, ?_, ?_, rfl, rfl, rfl⟩ <;> decide

/-- Claim C6: each of the two notebook documents is a JSON object with
a `cells` list whose cells all have a `cell_type`, a `metadata` object
and a `source` array of strings, a `metadata` object containing a
kernel spec, and nbformat version 4. -/
theorem notebookDocumentsValid :
    notebookValid nbDoc1 = true ∧ notebookValid nbDoc2 = true :=
  ⟨rfl, rfl⟩

/-- Claim C7, counterexample: the `losses` list is a notebook-defined
value that is accumulated across steps after being created: the
training cell creates it empty, yet after the loop it is not empty
(with the recorded per-repetition losses 0,1,2,3,4 it ends as
`[0,1,2,3,4]`). -/
theorem lossesListIsAccumulated :
    lossesAfterTraining (fun e => e) ≠ ([] : List Nat) := by
  decide

/-- Claim C7, amended: the `losses` list, the value the claim singles
out, does not stay as created: the training cell creates it empty and
it accumulates exactly the mse test loss recorded before each of the
`repetitions` training passes, one per repetition, ending as the list
of the `repetitions` recorded losses. -/
theorem lossesAccumulatesOnePerRepetition :
    ∀ {α : Type} (lossAt : Nat → α),
      lossesAfterTraining lossAt = (List.range repetitions).map lossAt
        ∧ (lossesAfterTraining lossAt).length = repetitions := by
  intro α lossAt
  exact ⟨rfl, rfl⟩

/-- Claim C8: no code cell of either notebook document contains any
token that would create a thread, a process, or an asynchronous task
(`thread`, `Thread`, `multiprocessing`, `subprocess`, `asyncio`,
`async`, `await`, `concurrent`, `fork`, `Pool`): execution is plain
sequential cell code, and any concurrency lives inside the external
libraries. -/
theorem noConcurrencyConstructs :
    hasNoConcurrency nbDoc1 = true ∧ hasNoConcurrency nbDoc2 = true :=
  ⟨rfl, rfl⟩

/-- Claim C9: `train_targets` binds `decode_probe` to exactly the value
bound to `inp` in `train_inputs`, and `test_targets` likewise aliases
`test_inputs`: for every training and evaluation batch the
reconstruction target equals the network input exactly. -/
theorem targetsAliasInputs :
    ∀ (trainImages testImages : List (List ℚ)),
      (train_targets trainImages).bind (fun d => dictGet d NetKey.decode_probe)
          = dictGet (train_inputs trainImages) NetKey.inp
        ∧ train_targets trainImages
          = Except.ok [(NetKey.decode_probe, addMiddleAxis trainImages)]
        ∧ (test_targets testImages).bind (fun d => dictGet d NetKey.decode_probe)
          = dictGet (test_inputs testImages) NetKey.inp
        ∧ test_targets testImages
          = Except.ok [(NetKey.decode_probe, addMiddleAxis testImages)] := by
  intro trainImages testImages
  exact ⟨rfl, rfl, rfl, rfl⟩

/-- Claim C10: `Encoder.__call__` produces width `n_hidden_2 = 36`
whatever state `pre_build` stored, `Decoder.__call__` produces width
`self.size_out`, and under the actual instantiation (`tf_encode` with
`size_out = n_hidden_2`, `tf_decode` with `size_out = n_input`) each
TensorNode's produced width equals its declared `size_out`. -/
theorem tensorNodeProducedWidths :
    (∀ (s : EncoderState) (w : Nat), Encoder.callWidth s w = n_hidden_2)
      ∧ n_hidden_2 = 36
      ∧ (∀ (s : DecoderState) (w : Nat), Decoder.callWidth s w = s.size_out)
      ∧ (∀ (m w : Nat), Encoder.callWidth (builtEncoderState m) w = tf_encode.size_out)
      ∧ (∀ (m w : Nat), Decoder.callWidth (builtDecoderState m) w = tf_decode.size_out) :=
  ⟨fun _ _ => rfl, rfl, fun _ _ => rfl, fun _ _ => rfl, fun _ _ => rfl⟩

end NengoExamples
